import Mathlib

/-!
Verification development for the perpetual-DEX core contracts of this
repository: the virtual constant-product market maker (`Vamm.sol`), the
clearing house (`ClearingHouse`), the account ledger (`AccountBalance.sol`)
and the funding engine (`Funding`, in `InsuranceFund.sol`).

The contracts are embedded shallowly: `uint256` values become `Nat`,
`int256` values become `Int` (Solidity `int256` division truncates toward
zero, which is `Int.tdiv`), the `Decimal.D256` fixed-point wrapper becomes a
raw `Nat` at scale 10^18 with the library's floor-dividing operations, and
reverting code paths become `Except Err` results (a revert discards all
state changes, so an `Except.error` result models "state unchanged").
Arithmetic is modelled unbounded; Solidity 0.8 checked-overflow reverts at
values near 2^256 are outside the input ranges considered here, while
checked *subtraction* underflow, which is reachable at ordinary values, is
modelled explicitly.
-/

namespace PerpDex

/-- 10^18, the `Decimal` fixed-point scale (`UNIT` in `SafeDecimalMath.sol`). -/
def UNIT : Nat := 1000000000000000000

/-- `BASIS_POINTS = 10000`, shared by all contracts. -/
def basisPoints : Nat := 10000

/-- `Vamm.FEE_RATIO = 30` (0.3% trading fee, in basis points). -/
def feeRatio : Nat := 30

/-- `1 days` in seconds, as used by `Funding.updateFundingRate`. -/
def oneDay : Nat := 86400

/-- `Decimal.mulD`: `a.value * b.value / 10**18` (floor). -/
def mulD (a b : Nat) : Nat := a * b / UNIT

/-- `Decimal.divD`: `a.value * 10**18 / b.value` (floor). -/
def divD (a b : Nat) : Nat := a * UNIT / b

/-- Error kinds corresponding to the contracts' revert reasons. -/
inductive Err where
  | amountNotPositive     -- "Amount must be positive" (Vamm.swap)
  | slippageExceeded      -- "Slippage exceeded"
  | invalidReserves       -- "Invalid reserves" (Vamm constructor)
  | marketNotActive       -- "Market not active" (ClearingHouse.openPosition)
  | leverageTooHigh       -- "Leverage too high" (ClearingHouse.openPosition)
  | noPosition            -- "No position" (closePosition / liquidate)
  | invalidRatio          -- "Invalid ratio" (closePosition)
  | notLiquidatable       -- "Not liquidatable" (liquidate)
  | insufficientCollateral -- "Insufficient collateral" (AccountBalance.withdraw)
  | marginViolation       -- "Would violate margin requirements" (AccountBalance.withdraw)
  | tooEarly              -- "Too early" (Funding.updateFundingRate)
  | invalidPeriod         -- "Invalid period" (Funding.setFundingPeriod)
  | rateTooHigh           -- "Rate too high" (Funding.setMaxFundingRate)
  | arithmeticPanic       -- Solidity panic: division by zero / underflow
  deriving Repr, DecidableEq

deriving instance DecidableEq for Except

/-- Solidity 0.8 checked subtraction on `uint256`: reverts on underflow. -/
def subChecked (a b : Nat) : Except Err Nat :=
  if b ≤ a then .ok (a - b) else .error .arithmeticPanic

/-! ## Vamm (src/src/perp/contracts/amm/Vamm.sol)

The `clearingHouse` authorization and the `isPaused` flag only gate *which*
calls can run; they do not affect the arithmetic of a successful call, and
every claim below quantifies over successful (or explicitly failing) calls,
so they are omitted from the state. -/

/-- The vAMM's stored reserves and constant product
(`virtualBase.value`, `virtualQuote.value`, `k.value`). -/
structure VammState where
  virtualBase : Nat
  virtualQuote : Nat
  k : Nat
  deriving Repr, DecidableEq

namespace Vamm

/-- The `Vamm` constructor: requires positive reserves and sets
`k = virtualBase.mulD(virtualQuote)`. -/
def init (b q : Nat) : Except Err VammState :=
  if 0 < b ∧ 0 < q then .ok ⟨b, q, mulD b q⟩ else .error .invalidReserves

/-- Result of a successful `Vamm.swap`: the new reserve state, the returned
`amountOut` and the fee charged (as emitted in the `Swapped` event). -/
structure SwapResult where
  state : VammState
  amountOut : Nat
  fee : Nat
  deriving Repr, DecidableEq

/-- `Vamm.swap(isLong, amountIn, minAmountOut)` (Vamm.sol lines 75-121).
The fee is deducted from the input, the output is computed from
`k.divD(newReserve)`, and the reserves are committed on success. -/
def swap (s : VammState) (isLong : Bool) (amountIn minAmountOut : Nat) :
    Except Err SwapResult :=
  if amountIn = 0 then .error .amountNotPositive else
  let fee := amountIn * feeRatio / basisPoints
  let amountInAfterFee := amountIn - fee
  if isLong then
    let newQuote := s.virtualQuote + amountInAfterFee
    let newBase := divD s.k newQuote
    match subChecked s.virtualBase newBase with
    | .error e => .error e
    | .ok amountOut =>
      if amountOut < minAmountOut then .error .slippageExceeded
      else .ok ⟨⟨newBase, newQuote, s.k⟩, amountOut, fee⟩
  else
    let newBase := s.virtualBase + amountInAfterFee
    let newQuote := divD s.k newBase
    match subChecked s.virtualQuote newQuote with
    | .error e => .error e
    | .ok amountOut =>
      if amountOut < minAmountOut then .error .slippageExceeded
      else .ok ⟨⟨newBase, newQuote, s.k⟩, amountOut, fee⟩

/-- `Vamm.getAmountOut(isLong, amountIn)` (Vamm.sol lines 137-156):
the read-only quote; returns `0` immediately when `amountIn == 0`. -/
def getAmountOut (s : VammState) (isLong : Bool) (amountIn : Nat) :
    Except Err Nat :=
  if amountIn = 0 then .ok 0 else
  let fee := amountIn * feeRatio / basisPoints
  let amountInAfterFee := amountIn - fee
  if isLong then
    let newQuote := s.virtualQuote + amountInAfterFee
    let newBase := divD s.k newQuote
    subChecked s.virtualBase newBase
  else
    let newBase := s.virtualBase + amountInAfterFee
    let newQuote := divD s.k newBase
    subChecked s.virtualQuote newQuote

/-- `Vamm.adjustReserves(newBase, newQuote)` (Vamm.sol lines 190-201):
replaces both reserves and recomputes `k`. -/
def adjustReserves (_s : VammState) (newBase newQuote : Nat) :
    Except Err VammState :=
  if 0 < newBase ∧ 0 < newQuote then .ok ⟨newBase, newQuote, mulD newBase newQuote⟩
  else .error .invalidReserves

/-- Runs a list of `swap` calls `(isLong, amountIn, minAmountOut)` in order,
failing if any call fails (no `adjustReserves` in between). -/
def runSwaps : VammState → List (Bool × Nat × Nat) → Except Err VammState
  | s, [] => .ok s
  | s, c :: cs =>
    match swap s c.1 c.2.1 c.2.2 with
    | .error e => .error e
    | .ok r => runSwaps r.state cs

end Vamm

/-! ## ClearingHouse (src/unnamed/part_007)

`positions` is keyed by `(trader, baseToken)` and `markets` by `baseToken`;
each operation reads and writes only the single entry for the caller's pair
and that market's configuration, so the functions below act on one
`Position` together with its `Market`. A deleted mapping entry reads back as
the all-zero struct in Solidity, so `delete positions[trader][baseToken]` is
modelled by storing `Position.empty`. -/

/-- The `ClearingHouse.Position` struct. -/
structure Position where
  size : Int
  collateral : Nat
  entryPrice : Nat
  fundingIndex : Int
  lastUpdated : Nat
  openNotional : Nat
  deriving Repr, DecidableEq

/-- The all-zero `Position`, the value a deleted mapping entry reads as. -/
def Position.empty : Position := ⟨0, 0, 0, 0, 0, 0⟩

/-- The `ClearingHouse.Market` struct (the `baseToken`/`vamm` addresses do
not enter any arithmetic and are omitted). -/
structure Market where
  isActive : Bool
  maxLeverage : Nat
  maintenanceMarginRatio : Nat
  liquidationFeeRatio : Nat
  deriving Repr, DecidableEq

/-- The market configuration that `ClearingHouse.addMarket` installs
(`maintenanceMarginRatio = 50`, `liquidationFeeRatio = 500`). -/
def addMarket (maxLeverage : Nat) : Market :=
  ⟨true, maxLeverage, 50, 500⟩

namespace ClearingHouse

/-- Result of a successful `openPosition`: the stored position, the returned
`baseAmount`, and the fee reported in the `PositionChanged` event (the code
emits the literal `0`). -/
structure OpenResult where
  pos : Position
  baseAmount : Nat
  fee : Nat
  deriving Repr, DecidableEq

/-- `ClearingHouse.openPosition(baseToken, isLong, collateralAmount,
leverage, minBaseAmount)` (part_007 lines 95-137). The code computes
`openNotional = collateralAmount * leverage / BASIS_POINTS` and then uses
`baseAmount = openNotional` directly ("Simplified 1:1 for now") instead of
calling the vAMM; it makes no call into `AccountBalance`. When a fresh
position would have `baseAmount == 0`, `openNotional * 1e18 / baseAmount`
panics (division by zero) and the call reverts. -/
def openPosition (market : Market) (pos : Position) (isLong : Bool)
    (collateralAmount leverage minBaseAmount now : Nat) :
    Except Err OpenResult :=
  if !market.isActive then .error .marketNotActive else
  if market.maxLeverage < leverage then .error .leverageTooHigh else
  let openNotional := collateralAmount * leverage / basisPoints
  let baseAmount := openNotional
  if baseAmount < minBaseAmount then .error .slippageExceeded else
  let newSize : Int := if isLong then (baseAmount : Int) else -(baseAmount : Int)
  if pos.size = 0 then
    if baseAmount = 0 then .error .arithmeticPanic else
    .ok ⟨{ size := newSize
           collateral := collateralAmount
           entryPrice := openNotional * UNIT / baseAmount
           fundingIndex := pos.fundingIndex
           lastUpdated := now
           openNotional := openNotional }, baseAmount, 0⟩
  else
    let totalNotional := pos.openNotional + openNotional
    let totalSize := pos.size.natAbs + baseAmount
    .ok ⟨{ size := pos.size + newSize
           collateral := pos.collateral + collateralAmount
           entryPrice := totalNotional * UNIT / totalSize
           fundingIndex := pos.fundingIndex
           lastUpdated := now
           openNotional := totalNotional }, baseAmount, 0⟩

/-- Result of a successful `closePosition`: the stored position afterwards
(`Position.empty` after a full close, since `delete` zeroes the mapping
entry), the returned PnL, and the fee reported in the `PositionChanged`
event (the code emits the literal `0`). -/
structure CloseResult where
  pos : Position
  pnl : Int
  fee : Nat
  deriving Repr, DecidableEq

/-- `ClearingHouse.closePosition(baseToken, closeRatio)` (part_007 lines
139-175). Requires an existing position (`size != 0`) and
`closeRatio <= BASIS_POINTS`; uses `currentPrice = pos.entryPrice`
("Simplified - should get from oracle/vAMM"); a full close deletes the
record, a partial close scales `collateral` and `openNotional` by
`(BASIS_POINTS - closeRatio) / BASIS_POINTS`. It makes no call into
`AccountBalance`. -/
def closePosition (pos : Position) (closeRatio now : Nat) :
    Except Err CloseResult :=
  if pos.size = 0 then .error .noPosition else
  if basisPoints < closeRatio then .error .invalidRatio else
  let isLong := 0 < pos.size
  let posSize := pos.size.natAbs
  let closeSize := posSize * closeRatio / basisPoints
  let closeNotional := closeSize * pos.entryPrice / UNIT
  let currentPrice := pos.entryPrice
  let currentNotional := closeSize * currentPrice / UNIT
  let pnl : Int := if isLong then (currentNotional : Int) - (closeNotional : Int)
                   else (closeNotional : Int) - (currentNotional : Int)
  if closeRatio = basisPoints then
    .ok ⟨Position.empty, pnl, 0⟩
  else
    .ok ⟨{ pos with
           size := if isLong then pos.size - (closeSize : Int)
                   else pos.size + (closeSize : Int)
           collateral := pos.collateral * (basisPoints - closeRatio) / basisPoints
           openNotional := pos.openNotional * (basisPoints - closeRatio) / basisPoints
           lastUpdated := now }, pnl, 0⟩

/-- `ClearingHouse.liquidate(trader, baseToken)` (part_007 lines 177-201).
Computes `posValue = |size| * entryPrice / 1e18` and
`marginRatio = collateral * BASIS_POINTS / posValue` (a zero `posValue`
panics before the liquidatability check); requires
`marginRatio < market.maintenanceMarginRatio`; on success deletes the
position and returns the liquidation fee. -/
def liquidate (market : Market) (pos : Position) :
    Except Err (Position × Nat) :=
  if pos.size = 0 then .error .noPosition else
  let posSize := pos.size.natAbs
  let posValue := posSize * pos.entryPrice / UNIT
  if posValue = 0 then .error .arithmeticPanic else
  let marginRatio := pos.collateral * basisPoints / posValue
  if market.maintenanceMarginRatio ≤ marginRatio then .error .notLiquidatable else
  let liquidationFee := pos.collateral * market.liquidationFeeRatio / basisPoints
  .ok (Position.empty, liquidationFee)

end ClearingHouse

/-! ## AccountBalance (src/src/perp/contracts/core/AccountBalance.sol)

The collateral mapping is keyed by trader and every call touches one
trader's entry, so the functions below act on a single balance. -/

namespace AccountBalance

/-- `AccountBalance.MAINTENANCE_MARGIN_RATIO = 50`. -/
def maintenanceMarginRatioAB : Nat := 50

/-- `AccountBalance.INITIAL_MARGIN_RATIO = 100`. -/
def initialMarginRatioAB : Nat := 100

/-- `AccountBalance.canWithdraw(trader, amount)` (lines 118-125): computes
`collateral[trader].sub(amount)` (which panics on underflow) and then
`return true; // Simplified` — the margin check is a stub. -/
def canWithdraw (balance amount : Nat) : Except Err Bool :=
  match subChecked balance amount with
  | .error e => .error e
  | .ok _ => .ok true

/-- `AccountBalance.withdraw(trader, amount)` (lines 48-53): requires
`collateral[trader] >= amount`, then requires `canWithdraw`, then debits. -/
def withdraw (balance amount : Nat) : Except Err Nat :=
  if balance < amount then .error .insufficientCollateral else
  match canWithdraw balance amount with
  | .error e => .error e
  | .ok true => .ok (balance - amount)
  | .ok false => .error .marginViolation

/-- `AccountBalance.getMarginRatio(trader)` (lines 100-111): the
`totalPositionValue` accumulator is left at `Decimal.zero()` ("In
production, sum all position values"), so the `isZero` branch always
returns `0`. -/
def getMarginRatio (balance : Nat) : Nat :=
  let totalPositionValue : Nat := 0
  if totalPositionValue = 0 then 0
  else balance * basisPoints / totalPositionValue

/-- `AccountBalance.isLiquidatable(trader)` (lines 113-116):
`ratio < MAINTENANCE_MARGIN_RATIO && ratio > 0`. -/
def isLiquidatable (balance : Nat) : Bool :=
  let ratio := getMarginRatio balance
  decide (ratio < maintenanceMarginRatioAB) && decide (0 < ratio)

end AccountBalance

/-! ## Funding (second contract in src/src/perp/contracts/core/InsuranceFund.sol)

State for one market's `FundingGrowth` entry plus one trader's
`traderFundingIndex` entry, together with the contract-level configuration. -/

/-- The `Funding.FundingGrowth` struct. -/
structure FundingGrowth where
  longFundingRate : Int
  shortFundingRate : Int
  timestamp : Nat
  cumulativeFunding : Int
  deriving Repr, DecidableEq

/-- Funding-contract state restricted to one market and one trader. -/
structure FundingState where
  growth : FundingGrowth
  traderIndex : Int
  fundingPeriod : Nat
  maxFundingRate : Nat
  deriving Repr, DecidableEq

namespace Funding

/-- `Funding.updateFundingRate(baseToken, markPrice, indexPrice, ...)`
(InsuranceFund.sol file, lines 168-206). Fails with "Too early" when
`block.timestamp < growth.timestamp + fundingPeriod`; otherwise computes
`premium = (markPrice - indexPrice) * BASIS_POINTS / indexPrice` and
`fundingRate = premium * fundingPeriod / 1 days` (both `int256` divisions,
truncating toward zero; `indexPrice == 0` panics), caps the rate at
`±maxFundingRate`, adds it to `cumulativeFunding` and stamps the time. -/
def updateFundingRate (s : FundingState) (markPrice indexPrice : Int)
    (timeNow : Nat) : Except Err (FundingState × Int) :=
  if timeNow < s.growth.timestamp + s.fundingPeriod then .error .tooEarly else
  if indexPrice = 0 then .error .arithmeticPanic else
  let premium := Int.tdiv ((markPrice - indexPrice) * (basisPoints : Int)) indexPrice
  let fundingRate0 := Int.tdiv (premium * (s.fundingPeriod : Int)) (oneDay : Int)
  let fundingRate1 := if (s.maxFundingRate : Int) < fundingRate0
                      then (s.maxFundingRate : Int) else fundingRate0
  let fundingRate := if fundingRate1 < -(s.maxFundingRate : Int)
                     then -(s.maxFundingRate : Int) else fundingRate1
  .ok ({ s with growth :=
          { longFundingRate := fundingRate
            shortFundingRate := -fundingRate
            timestamp := timeNow
            cumulativeFunding := s.growth.cumulativeFunding + fundingRate } },
       fundingRate)

/-- `Funding.settleFunding(trader, baseToken, positionSize)` (lines
208-231): pays `positionSize * (cumulativeFunding - traderIndex) /
BASIS_POINTS` and moves the trader's index up to the cumulative index;
`cumulativeFunding` itself is not written. -/
def settleFunding (s : FundingState) (positionSize : Int) :
    FundingState × Int :=
  let fundingDelta := s.growth.cumulativeFunding - s.traderIndex
  let fundingOwed := Int.tdiv (positionSize * fundingDelta) (basisPoints : Int)
  ({ s with traderIndex := s.growth.cumulativeFunding }, fundingOwed)

/-- `Funding.setFundingPeriod` (admin): rejects `0`, otherwise replaces the
period; does not touch the growth record. -/
def setFundingPeriod (s : FundingState) (p : Nat) : Except Err FundingState :=
  if p = 0 then .error .invalidPeriod else .ok { s with fundingPeriod := p }

/-- `Funding.setMaxFundingRate` (admin): rejects rates above
`BASIS_POINTS`; does not touch the growth record. -/
def setMaxFundingRate (s : FundingState) (r : Nat) : Except Err FundingState :=
  if basisPoints < r then .error .rateTooHigh else .ok { s with maxFundingRate := r }

end Funding

/-! ## Combined system state

`ClearingHouse.openPosition`, `closePosition` and `liquidate` make no calls
into `AccountBalance` or the vAMM (part_007 compiles against them but never
invokes them in these paths), so at the system level those operations change
only the position component. -/

/-- The state visible to one `(trader, market)` pair across the deployed
contracts: the market configuration, the stored position, the trader's
`AccountBalance` free collateral, and the market's vAMM reserves. -/
structure SystemState where
  market : Market
  pos : Position
  freeCollateral : Nat
  vamm : VammState
  deriving Repr, DecidableEq

/-- System-level `openPosition`: the ClearingHouse code mutates only
`positions[trader][baseToken]`. -/
def sysOpenPosition (s : SystemState) (isLong : Bool)
    (collateralAmount leverage minBaseAmount now : Nat) :
    Except Err (SystemState × Nat) :=
  match ClearingHouse.openPosition s.market s.pos isLong collateralAmount
      leverage minBaseAmount now with
  | .error e => .error e
  | .ok r => .ok ({ s with pos := r.pos }, r.baseAmount)

/-- System-level `closePosition`: the ClearingHouse code mutates only
`positions[trader][baseToken]`. -/
def sysClosePosition (s : SystemState) (closeRatio now : Nat) :
    Except Err (SystemState × Int) :=
  match ClearingHouse.closePosition s.pos closeRatio now with
  | .error e => .error e
  | .ok r => .ok ({ s with pos := r.pos }, r.pnl)

/-- Modelled from the spec: the Account Ledger's margin-guard predicate is
missing from the source — `AccountBalance.canWithdraw` computes the
remaining collateral and then `return true; // Simplified` — so the
reference notion "after the hypothetical withdrawal, any open position of
the trader would fall below its market's initial margin requirement"
(spec section 4.2) is defined here from the spec's words: the margin
backing a position (its committed collateral plus the trader's remaining
free balance, the "account value") measured against the position's
notional in basis points falls below `INITIAL_MARGIN_RATIO`. -/
def breachesInitialMargin (pos : Position) (balanceAfter : Nat) : Prop :=
  pos.size ≠ 0 ∧
  (pos.collateral + balanceAfter) * basisPoints <
    AccountBalance.initialMarginRatioAB * (pos.size.natAbs * pos.entryPrice / UNIT)

instance (pos : Position) (balanceAfter : Nat) :
    Decidable (breachesInitialMargin pos balanceAfter) :=
  inferInstanceAs (Decidable (_ ∧ _))

/-! ## Supporting lemmas -/

theorem UNIT_pos : 0 < UNIT := by norm_num [UNIT]

/-- Multiplying a floor quotient of `k * UNIT` back and rescaling cannot
exceed `k`: the committed reserve product after a long swap. -/
theorem mulD_divD_le (k x : Nat) : mulD (divD k x) x ≤ k := by
  unfold mulD divD
  calc k * UNIT / x * x / UNIT ≤ k * UNIT / UNIT :=
        Nat.div_le_div_right (Nat.div_mul_le_self _ _)
    _ = k := Nat.mul_div_cancel_left k UNIT_pos ▸ Nat.mul_div_cancel _ UNIT_pos

/-- The symmetric bound for a short swap. -/
theorem divD_mulD_le (k x : Nat) : mulD x (divD k x) ≤ k := by
  unfold mulD divD
  calc x * (k * UNIT / x) / UNIT ≤ k * UNIT / UNIT := by
        refine Nat.div_le_div_right ?_
        rw [Nat.mul_comm]
        exact Nat.div_mul_le_self _ _
    _ = k := Nat.mul_div_cancel _ UNIT_pos

/-- Any successful `Vamm.swap` keeps the stored `k` and leaves the stored
reserve product (recomputed with the library's `mulD`) at most `k`. -/
theorem Vamm.swap_ok_inv (s : VammState) (isLong : Bool) (aIn minOut : Nat)
    (r : Vamm.SwapResult) (h : Vamm.swap s isLong aIn minOut = .ok r) :
    r.state.k = s.k ∧ mulD r.state.virtualBase r.state.virtualQuote ≤ s.k := by
  unfold Vamm.swap subChecked at h
  split at h
  · exact absurd h (by simp)
  split at h
  · simp only [] at h
    split at h
    · exact absurd h (by simp)
    · split at h
      · exact absurd h (by simp)
      · cases h
        exact ⟨rfl, mulD_divD_le _ _⟩
  · simp only [] at h
    split at h
    · exact absurd h (by simp)
    · split at h
      · exact absurd h (by simp)
      · cases h
        exact ⟨rfl, divD_mulD_le _ _⟩

/-- The invariant extends to any list of successful swaps. -/
theorem Vamm.runSwaps_inv (calls : List (Bool × Nat × Nat)) :
    ∀ s t : VammState, mulD s.virtualBase s.virtualQuote ≤ s.k →
      Vamm.runSwaps s calls = .ok t →
      t.k = s.k ∧ mulD t.virtualBase t.virtualQuote ≤ t.k := by
  induction calls with
  | nil =>
    intro s t h hr
    unfold Vamm.runSwaps at hr
    cases hr
    exact ⟨rfl, h⟩
  | cons c cs ih =>
    intro s t h hr
    unfold Vamm.runSwaps at hr
    split at hr
    · exact absurd hr (by simp)
    · rename_i r heq
      obtain ⟨hk, hle⟩ := Vamm.swap_ok_inv s c.1 c.2.1 c.2.2 r heq
      obtain ⟨hk2, hle2⟩ := ih r.state t (by rw [hk]; exact hle) hr
      exact ⟨hk2.trans hk, hle2⟩

/-! ## Claim theorems -/

/-- C1 (counterexample): from the constructor state with reserves
`3e18 / 3e18` (`k = 9e18`), one successful long swap of `1e18` commits
reserves whose recomputed product `virtualBase.mulD(virtualQuote)` is
`9e18 - 2`, not `k`: the truncating `k.divD(newQuote)` loses the division
remainder, so `base * quote == k` does not hold exactly after the swap,
refuting the claim as stated. -/
theorem C1_product_not_exact :
    Vamm.init (3 * UNIT) (3 * UNIT) = .ok ⟨3 * UNIT, 3 * UNIT, 9 * UNIT⟩ ∧
    Vamm.runSwaps ⟨3 * UNIT, 3 * UNIT, 9 * UNIT⟩ [(true, UNIT, 0)] =
      .ok ⟨2251688766574931198, 3997000000000000000, 9 * UNIT⟩ ∧
    mulD 2251688766574931198 3997000000000000000 ≠ 9 * UNIT := by
  refine ⟨by decide, by decide, by decide⟩

/-- C1 (amended): for every finite sequence of successful `swap` calls with
no intervening `adjustReserves`, starting from a constructor state, the
stored `k` is unchanged and after each swap the stored reserves satisfy
`virtualBase.mulD(virtualQuote) ≤ k` (truncating division can lose up to a
division remainder, so exact equality fails; every prefix of the sequence
is itself such a sequence, so this bounds the product after each swap). -/
theorem C1_swaps_preserve_k_product_le (b q : Nat) (s0 t : VammState)
    (calls : List (Bool × Nat × Nat))
    (hinit : Vamm.init b q = .ok s0)
    (hrun : Vamm.runSwaps s0 calls = .ok t) :
    t.k = s0.k ∧ mulD t.virtualBase t.virtualQuote ≤ t.k := by
  have h0 : mulD s0.virtualBase s0.virtualQuote ≤ s0.k := by
    unfold Vamm.init at hinit
    split at hinit
    · cases hinit; exact Nat.le_refl _
    · exact absurd hinit (by simp)
  exact Vamm.runSwaps_inv calls s0 t h0 hrun

/-- C1 (witness): the amended theorem applied at the concrete constructor
state `3e18 / 3e18` and the single swap of the counterexample. -/
theorem C1_swaps_preserve_k_product_le_witness :
    (⟨2251688766574931198, 3997000000000000000, 9 * UNIT⟩ : VammState).k =
      (⟨3 * UNIT, 3 * UNIT, 9 * UNIT⟩ : VammState).k ∧
    mulD 2251688766574931198 3997000000000000000 ≤ 9 * UNIT :=
  C1_swaps_preserve_k_product_le (3 * UNIT) (3 * UNIT)
    ⟨3 * UNIT, 3 * UNIT, 9 * UNIT⟩
    ⟨2251688766574931198, 3997000000000000000, 9 * UNIT⟩
    [(true, UNIT, 0)] (by decide) (by decide)

/-- C10: for every reserve state and direction, the read-only
`getAmountOut` answers `0` for a zero input, while `swap` with a zero input
fails its `require(amountIn > 0)` check (and, reverting, leaves the
reserves unchanged), whatever `minAmountOut` is. -/
theorem C10_zero_input (s : VammState) (isLong : Bool) (minOut : Nat) :
    Vamm.getAmountOut s isLong 0 = .ok 0 ∧
    Vamm.swap s isLong 0 minOut = .error .amountNotPositive := by
  constructor
  · unfold Vamm.getAmountOut; simp
  · unfold Vamm.swap; simp

/-- C2 (counterexample): scenario market `base = 1000e18`,
`quote = 2_000_000e18` (`k = 2e9·1e18`); the trader opens long with
`collateralIn = 100e18` and `leverageBps = 1000`, so `notional = 10e18`.
`openPosition` succeeds and returns a position size equal to the notional
itself (the source keeps `baseAmount = openNotional`, "Simplified 1:1 for
now"), while the vAMM constant-product swap for that notional returns
`4984975149898878` (about `0.005e18`); and the trader's free collateral
balance stays `500e18` instead of being debited by `100e18`. -/
theorem C2_size_not_vamm_output :
    sysOpenPosition
      ⟨addMarket 10000, Position.empty, 500 * UNIT,
        ⟨1000 * UNIT, 2000000 * UNIT, 2000000000 * UNIT⟩⟩
      true (100 * UNIT) 1000 0 7
      = .ok (⟨addMarket 10000,
          ⟨(10 * UNIT : Int), 100 * UNIT, UNIT, 0, 7, 10 * UNIT⟩,
          500 * UNIT, ⟨1000 * UNIT, 2000000 * UNIT, 2000000000 * UNIT⟩⟩,
        10 * UNIT) ∧
    (Vamm.swap ⟨1000 * UNIT, 2000000 * UNIT, 2000000000 * UNIT⟩ true
        (10 * UNIT) 0).map (fun r => r.amountOut) = .ok 4984975149898878 ∧
    (4984975149898878 : Nat) ≠ 10 * UNIT ∧
    (500 * UNIT : Nat) ≠ 500 * UNIT - 100 * UNIT := by
  refine ⟨by decide, by decide, by decide, by decide⟩

/-- C2 (amended): every successful `openPosition` on an active market with
`leverageBps <= maxLeverage` has notional `collateralIn * leverageBps /
10000`, but the returned position size equals that notional itself (the
code does not call the vAMM), and nothing is debited from the trader's
Account Ledger free balance (nor do the vAMM reserves move); for a fresh
position the collateral is recorded inside the position record instead. -/
theorem C2_open_simplified (s : SystemState) (isLong : Bool)
    (c lev minB now : Nat) (s' : SystemState) (amt : Nat)
    (h : sysOpenPosition s isLong c lev minB now = .ok (s', amt)) :
    amt = c * lev / basisPoints ∧
    s'.freeCollateral = s.freeCollateral ∧
    s'.vamm = s.vamm ∧
    (s.pos.size = 0 → s'.pos.collateral = c ∧
      s'.pos.size = (if isLong then (amt : Int) else -(amt : Int))) := by
  unfold sysOpenPosition at h
  split at h
  · exact absurd h (by simp)
  rename_i r heq
  simp only [Except.ok.injEq, Prod.mk.injEq] at h
  obtain ⟨h1, h2⟩ := h
  subst h1
  subst h2
  unfold ClearingHouse.openPosition at heq
  split at heq
  · exact absurd heq (by simp)
  split at heq
  · exact absurd heq (by simp)
  simp only [] at heq
  split at heq
  · exact absurd heq (by simp)
  split at heq
  · rename_i hsz
    split at heq
    · exact absurd heq (by simp)
    · cases heq
      exact ⟨rfl, rfl, rfl, fun _ => ⟨rfl, rfl⟩⟩
  · rename_i hsz
    cases heq
    exact ⟨rfl, rfl, rfl, fun h0 => absurd h0 hsz⟩

/-- C2 (witness): the amended theorem applied at the counterexample's
concrete scenario. -/
theorem C2_open_simplified_witness :
    (10 * UNIT : Nat) = 100 * UNIT * 1000 / basisPoints ∧
    (500 * UNIT : Nat) = 500 * UNIT ∧
    (⟨1000 * UNIT, 2000000 * UNIT, 2000000000 * UNIT⟩ : VammState) =
      ⟨1000 * UNIT, 2000000 * UNIT, 2000000000 * UNIT⟩ ∧
    ((Position.empty).size = 0 →
      (⟨(10 * UNIT : Int), 100 * UNIT, UNIT, 0, 7, 10 * UNIT⟩ : Position).collateral
          = 100 * UNIT ∧
      (⟨(10 * UNIT : Int), 100 * UNIT, UNIT, 0, 7, 10 * UNIT⟩ : Position).size
          = (if true then ((10 * UNIT : Nat) : Int) else -((10 * UNIT : Nat) : Int))) :=
  C2_open_simplified
    ⟨addMarket 10000, Position.empty, 500 * UNIT,
      ⟨1000 * UNIT, 2000000 * UNIT, 2000000000 * UNIT⟩⟩
    true (100 * UNIT) 1000 0 7
    ⟨addMarket 10000, ⟨(10 * UNIT : Int), 100 * UNIT, UNIT, 0, 7, 10 * UNIT⟩,
      500 * UNIT, ⟨1000 * UNIT, 2000000 * UNIT, 2000000000 * UNIT⟩⟩
    (10 * UNIT) (by decide)

/-- C3 (counterexample): a full close (`closeRatioBps = 10000`) of a
position holding `5e18` collateral succeeds and deletes the record, but the
trader's Account Ledger free balance stays `0` — the remaining collateral
is discarded, not returned to the free balance as the claim states. -/
theorem C3_collateral_not_returned :
    sysClosePosition
      ⟨addMarket 10000, ⟨(10 * UNIT : Int), 5 * UNIT, UNIT, 0, 0, 10 * UNIT⟩,
        0, ⟨1000 * UNIT, 2000000 * UNIT, 2000000000 * UNIT⟩⟩
      basisPoints 3
      = .ok (⟨addMarket 10000, Position.empty, 0,
          ⟨1000 * UNIT, 2000000 * UNIT, 2000000000 * UNIT⟩⟩, 0) ∧
    (0 : Nat) ≠ 0 + 5 * UNIT := by
  refine ⟨by decide, by decide⟩

/-- C3 (amended): a successful full close (`closeRatioBps == 10000`)
deletes the position record — the stored entry reads back as the all-zero
struct, so the size is exactly zero with no dust — but the position's
remaining collateral is not credited to the trader's free collateral
balance (the free balance is unchanged by every `closePosition`); a
successful close with `closeRatioBps != 10000` scales the position's
`collateral` and `openNotional` down by `(10000 - closeRatioBps)/10000`. -/
theorem C3_close_effects (s : SystemState) (ratio now : Nat)
    (s' : SystemState) (pnl : Int)
    (h : sysClosePosition s ratio now = .ok (s', pnl)) :
    s'.freeCollateral = s.freeCollateral ∧
    (ratio = basisPoints → s'.pos = Position.empty) ∧
    (ratio ≠ basisPoints →
      s'.pos.collateral = s.pos.collateral * (basisPoints - ratio) / basisPoints ∧
      s'.pos.openNotional = s.pos.openNotional * (basisPoints - ratio) / basisPoints) := by
  unfold sysClosePosition at h
  split at h
  · exact absurd h (by simp)
  rename_i r heq
  simp only [Except.ok.injEq, Prod.mk.injEq] at h
  obtain ⟨h1, h2⟩ := h
  subst h1
  subst h2
  unfold ClearingHouse.closePosition at heq
  split at heq
  · exact absurd heq (by simp)
  split at heq
  · exact absurd heq (by simp)
  simp only [] at heq
  split at heq
  · rename_i hr
    cases heq
    exact ⟨rfl, fun _ => rfl, fun hne => absurd hr hne⟩
  · rename_i hr
    cases heq
    exact ⟨rfl, fun he => absurd he hr, fun _ => ⟨rfl, rfl⟩⟩

/-- C3 (witness): the amended theorem applied at the counterexample's full
close. -/
theorem C3_close_effects_witness :
    (0 : Nat) = 0 ∧
    (basisPoints = basisPoints → Position.empty = Position.empty) ∧
    (basisPoints ≠ basisPoints →
      (Position.empty).collateral
          = 5 * UNIT * (basisPoints - basisPoints) / basisPoints ∧
      (Position.empty).openNotional
          = 10 * UNIT * (basisPoints - basisPoints) / basisPoints) :=
  C3_close_effects
    ⟨addMarket 10000, ⟨(10 * UNIT : Int), 5 * UNIT, UNIT, 0, 0, 10 * UNIT⟩,
      0, ⟨1000 * UNIT, 2000000 * UNIT, 2000000000 * UNIT⟩⟩
    basisPoints 3
    ⟨addMarket 10000, Position.empty, 0,
      ⟨1000 * UNIT, 2000000 * UNIT, 2000000000 * UNIT⟩⟩
    0 (by decide)

theorem basisPoints_pos : 0 < basisPoints := by norm_num [basisPoints]

/-- C5: opening a fresh position and immediately closing it in full
realizes a PnL equal to the negative of the two trading fees paid — in this
code both fees are the literal `0` reported in the `PositionChanged` events
(`openPosition` charges no fee and `closePosition` prices the exit at
`currentPrice = pos.entryPrice`, so the spot price is unchanged by
construction and the PnL is exactly `0 = -(0 + 0)`, well within one
rounding unit). -/
theorem C5_round_trip (market : Market) (pos0 : Position) (isLong : Bool)
    (c lev minB now now2 : Nat) (r : ClearingHouse.OpenResult)
    (h0 : pos0.size = 0)
    (h : ClearingHouse.openPosition market pos0 isLong c lev minB now = .ok r) :
    ∃ cr : ClearingHouse.CloseResult,
      ClearingHouse.closePosition r.pos basisPoints now2 = .ok cr ∧
      cr.pnl = -((r.fee : Int) + (cr.fee : Int)) ∧
      cr.pos = Position.empty := by
  have key : r.pos.size ≠ 0 ∧ r.fee = 0 := by
    unfold ClearingHouse.openPosition at h
    split at h
    · exact absurd h (by simp)
    split at h
    · exact absurd h (by simp)
    simp only [] at h
    split at h
    · exact absurd h (by simp)
    split at h
    · exact absurd h (by simp)
    rename_i hba
    cases h
    refine ⟨?_, rfl⟩
    dsimp only
    split
    · exact fun hc => hba (by exact_mod_cast hc)
    · intro hc
      exact hba (by omega)
  obtain ⟨hne, hfee⟩ := key
  refine ⟨⟨Position.empty, 0, 0⟩, ?_, by simp [hfee], rfl⟩
  unfold ClearingHouse.closePosition
  rw [if_neg hne, if_neg (lt_irrefl basisPoints)]
  simp

/-- C5 (witness): the round-trip theorem at a concrete fresh open (100e18
collateral at 10x) followed by its full close. -/
theorem C5_round_trip_witness :
    ∃ cr : ClearingHouse.CloseResult,
      ClearingHouse.closePosition
        (⟨(10 * UNIT : Int), 100 * UNIT, UNIT, 0, 1, 10 * UNIT⟩ : Position)
        basisPoints 2 = .ok cr ∧
      cr.pnl = -(((0 : Nat) : Int) + (cr.fee : Int)) ∧
      cr.pos = Position.empty :=
  C5_round_trip (addMarket 10000) Position.empty true (100 * UNIT) 1000 0 1 2
    ⟨⟨(10 * UNIT : Int), 100 * UNIT, UNIT, 0, 1, 10 * UNIT⟩, 10 * UNIT, 0⟩
    rfl (by decide)

/-- C6 (failing input, evaluated): open a long of `1e18` collateral at
leverage `10000` and then "add" an equal-sized short: the stored position
ends with `size == 0` but `collateral == 2e18 != 0`, and `closePosition`
then refuses it with `NoPosition`, so the collateral is stranded — the
invariant `size == 0 → collateral == 0` is violated by a reachable state. -/
theorem C6_size_zero_collateral_stranded :
    ((ClearingHouse.openPosition (addMarket 10000) Position.empty true
        UNIT 10000 0 1).bind fun r =>
      ClearingHouse.openPosition (addMarket 10000) r.pos false UNIT 10000 0 2)
      = .ok ⟨⟨0, 2 * UNIT, UNIT, 0, 2, 2 * UNIT⟩, UNIT, 0⟩ ∧
    ClearingHouse.closePosition ⟨0, 2 * UNIT, UNIT, 0, 2, 2 * UNIT⟩
        basisPoints 3 = .error .noPosition ∧
    (2 * UNIT : Nat) ≠ 0 := by
  refine ⟨by decide, by decide, by decide⟩

/-- C8 (counterexample): `closePosition` with `closeRatioBps == 0` on an
open position does not fail with `InvalidRatio` — the code only checks
`closeRatio <= BASIS_POINTS` — it succeeds as a no-op partial close
(size, collateral and entry notional unchanged, `lastUpdated` refreshed). -/
theorem C8_ratio_zero_accepted :
    ClearingHouse.closePosition ⟨(UNIT : Int), UNIT, UNIT, 0, 0, UNIT⟩ 0 9 =
      .ok ⟨⟨(UNIT : Int), UNIT, UNIT, 0, 9, UNIT⟩, 0, 0⟩ ∧
    ClearingHouse.closePosition ⟨(UNIT : Int), UNIT, UNIT, 0, 0, UNIT⟩ 0 9 ≠
      .error .invalidRatio := by
  refine ⟨by decide, by decide⟩

/-- C8 (amended): `closePosition` fails with `NoPosition` whenever the
trader has no open position (`size == 0`), fails with `InvalidRatio`
exactly for `closeRatioBps > 10000` (given an open position), and — unlike
the claim — accepts `closeRatioBps == 0` as a successful no-op partial
close; failures revert, leaving the position unchanged. -/
theorem C8_close_failure_modes (pos : Position) (ratio now : Nat) :
    (pos.size = 0 → ClearingHouse.closePosition pos ratio now = .error .noPosition) ∧
    (pos.size ≠ 0 →
      (ClearingHouse.closePosition pos ratio now = .error .invalidRatio ↔
        basisPoints < ratio)) ∧
    (pos.size ≠ 0 → ∃ cr : ClearingHouse.CloseResult,
      ClearingHouse.closePosition pos 0 now = .ok cr ∧
      cr.pos.size = pos.size ∧ cr.pos.collateral = pos.collateral ∧
      cr.pos.openNotional = pos.openNotional) := by
  refine ⟨fun h0 => ?_, fun hne => ⟨fun h => ?_, fun hgt => ?_⟩, fun hne => ?_⟩
  · unfold ClearingHouse.closePosition
    rw [if_pos h0]
  · by_contra hle
    unfold ClearingHouse.closePosition at h
    rw [if_neg hne, if_neg hle] at h
    simp only [] at h
    split at h <;> exact absurd h (by simp)
  · unfold ClearingHouse.closePosition
    rw [if_neg hne, if_pos hgt]
  · unfold ClearingHouse.closePosition
    rw [if_neg hne, if_neg (by norm_num [basisPoints] : ¬ basisPoints < 0)]
    simp only []
    rw [if_neg (by norm_num [basisPoints] : (0 : Nat) ≠ basisPoints)]
    refine ⟨_, rfl, ?_, ?_, ?_⟩
    · dsimp only
      split <;> simp
    · dsimp only
      rw [Nat.sub_zero, Nat.mul_div_cancel _ basisPoints_pos]
    · dsimp only
      rw [Nat.sub_zero, Nat.mul_div_cancel _ basisPoints_pos]

/-- C4 (counterexample): a trader whose open position is far below its
market's initial margin requirement (spec-modelled predicate
`breachesInitialMargin`: `50e18` collateral backing a `10000e18` notional
is 0.5%, below the 1% initial margin) can still withdraw their entire free
balance — `withdraw` succeeds because `canWithdraw` is a stub — so
`withdraw` does not fail with `MarginViolation` as the claim states. -/
theorem C4_withdraw_ignores_margin :
    AccountBalance.withdraw (10 * UNIT) (10 * UNIT) = .ok 0 ∧
    breachesInitialMargin
      ⟨(10000 * UNIT : Int), 50 * UNIT, UNIT, 0, 0, 10000 * UNIT⟩ 0 := by
  refine ⟨by decide, by decide⟩

/-- C4 (amended): `withdraw` fails with `InsufficientCollateral` exactly
when the requested amount exceeds the trader's free balance, and otherwise
always succeeds with the debited balance: the margin guard is vacuous
(`canWithdraw` returns `true` unconditionally), so `withdraw` can never
fail with `MarginViolation`, regardless of the trader's open positions. -/
theorem C4_withdraw_no_margin_guard (balance amount : Nat) :
    (AccountBalance.withdraw balance amount = .error .insufficientCollateral ↔
      balance < amount) ∧
    (amount ≤ balance →
      AccountBalance.withdraw balance amount = .ok (balance - amount)) ∧
    AccountBalance.withdraw balance amount ≠ .error .marginViolation := by
  unfold AccountBalance.withdraw AccountBalance.canWithdraw subChecked
  by_cases hlt : balance < amount
  · rw [if_pos hlt]
    exact ⟨⟨fun _ => hlt, fun _ => rfl⟩, fun hle => absurd hlt (by omega), by simp⟩
  · rw [if_neg hlt]
    rw [if_pos (by omega : amount ≤ balance)]
    exact ⟨⟨fun hc => absurd hc (by simp), fun hc => absurd hc hlt⟩,
      fun _ => rfl, by simp⟩

/-- C7 (counterexample): `AccountBalance.getMarginRatio` returns `0`
(strictly below the maintenance ratio of 50 bps), yet `isLiquidatable`
returns `false` because of its extra `ratio > 0` conjunct — so
`isLiquidatable` is not true exactly when the margin ratio is strictly
below the maintenance ratio. -/
theorem C7_isLiquidatable_not_iff_below :
    AccountBalance.getMarginRatio 100 < AccountBalance.maintenanceMarginRatioAB ∧
    AccountBalance.isLiquidatable 100 = false := by
  refine ⟨by decide, by decide⟩

/-- C7 (amended): `liquidate` fails with `NotLiquidatable` exactly when the
position's margin ratio (`collateral * 10000 / posValue`) is at or above
the market's maintenance margin ratio — a position exactly at the
threshold is never liquidatable — while the read-only
`AccountBalance.isLiquidatable` returns `true` exactly when its margin
ratio is strictly below the maintenance ratio AND strictly positive. -/
theorem C7_liquidation_boundary (market : Market) (pos : Position)
    (balance : Nat) (h1 : pos.size ≠ 0)
    (h2 : pos.size.natAbs * pos.entryPrice / UNIT ≠ 0) :
    (ClearingHouse.liquidate market pos = .error .notLiquidatable ↔
      market.maintenanceMarginRatio ≤
        pos.collateral * basisPoints / (pos.size.natAbs * pos.entryPrice / UNIT)) ∧
    (AccountBalance.isLiquidatable balance = true ↔
      (AccountBalance.getMarginRatio balance < AccountBalance.maintenanceMarginRatioAB ∧
        0 < AccountBalance.getMarginRatio balance)) := by
  constructor
  · unfold ClearingHouse.liquidate
    rw [if_neg h1]
    simp only []
    rw [if_neg h2]
    by_cases hc : market.maintenanceMarginRatio ≤
        pos.collateral * basisPoints / (pos.size.natAbs * pos.entryPrice / UNIT)
    · rw [if_pos hc]
      simp [hc]
    · rw [if_neg hc]
      simp [hc]
  · unfold AccountBalance.isLiquidatable AccountBalance.getMarginRatio
    simp

/-- C7 (witness): the amended theorem at a concrete market (maintenance 50
bps) and a concrete open position with nonzero notional. -/
theorem C7_liquidation_boundary_witness :
    (ClearingHouse.liquidate (addMarket 10000)
        ⟨(UNIT : Int), 0, UNIT, 0, 0, UNIT⟩ = .error .notLiquidatable ↔
      (addMarket 10000).maintenanceMarginRatio ≤
        (0 : Nat) * basisPoints /
          (((UNIT : Int) : Int).natAbs * UNIT / UNIT)) ∧
    (AccountBalance.isLiquidatable 100 = true ↔
      (AccountBalance.getMarginRatio 100 < AccountBalance.maintenanceMarginRatioAB ∧
        0 < AccountBalance.getMarginRatio 100)) :=
  C7_liquidation_boundary (addMarket 10000) ⟨(UNIT : Int), 0, UNIT, 0, 0, UNIT⟩
    100 (by decide) (by decide)

/-- C9: `updateFundingRate` fails with `TooEarly` exactly when `timeNow <
lastSettlement + fundingPeriod`; otherwise (for a nonzero index price) it
succeeds, adding exactly the rate `premiumBps * period / oneDay` — with
`premiumBps = (markPrice - indexPrice) * 10000 / indexPrice`, both
divisions truncating toward zero as in Solidity — clamped to
`[-maxRateBps, +maxRateBps]`, to the cumulative funding index, and sets the
settlement timestamp to `timeNow`; and no other operation of the Funding
contract (`settleFunding`, `setFundingPeriod`, `setMaxFundingRate`) changes
the cumulative index. -/
theorem C9_funding_update (s : FundingState) (markPrice indexPrice : Int)
    (timeNow : Nat) (hidx : indexPrice ≠ 0) :
    (Funding.updateFundingRate s markPrice indexPrice timeNow = .error .tooEarly ↔
      timeNow < s.growth.timestamp + s.fundingPeriod) ∧
    (s.growth.timestamp + s.fundingPeriod ≤ timeNow →
      ∃ s2 rate,
        Funding.updateFundingRate s markPrice indexPrice timeNow = .ok (s2, rate) ∧
        rate = max (-(s.maxFundingRate : Int)) (min ((s.maxFundingRate : Int))
          (Int.tdiv (Int.tdiv ((markPrice - indexPrice) * (basisPoints : Int))
            indexPrice * (s.fundingPeriod : Int)) (oneDay : Int))) ∧
        s2.growth.cumulativeFunding = s.growth.cumulativeFunding + rate ∧
        s2.growth.timestamp = timeNow ∧
        s2.growth.longFundingRate = rate ∧
        s2.growth.shortFundingRate = -rate ∧
        s2.traderIndex = s.traderIndex ∧
        s2.fundingPeriod = s.fundingPeriod ∧
        s2.maxFundingRate = s.maxFundingRate) ∧
    (∀ psize : Int,
      (Funding.settleFunding s psize).1.growth.cumulativeFunding =
        s.growth.cumulativeFunding) ∧
    (∀ p s2, Funding.setFundingPeriod s p = .ok s2 → s2.growth = s.growth) ∧
    (∀ q s2, Funding.setMaxFundingRate s q = .ok s2 → s2.growth = s.growth) := by
  have hmax : (0 : Int) ≤ (s.maxFundingRate : Int) := Int.ofNat_nonneg _
  refine ⟨?_, fun htime => ?_, fun psize => rfl, fun p s2 hp => ?_, fun q s2 hq => ?_⟩
  · unfold Funding.updateFundingRate
    by_cases ht : timeNow < s.growth.timestamp + s.fundingPeriod
    · rw [if_pos ht]
      simp [ht]
    · rw [if_neg ht]
      rw [if_neg hidx]
      simp only []
      constructor
      · intro hc
        exact absurd hc (by simp)
      · intro hc
        exact absurd hc ht
  · unfold Funding.updateFundingRate
    rw [if_neg (by omega : ¬ timeNow < s.growth.timestamp + s.fundingPeriod)]
    rw [if_neg hidx]
    simp only []
    refine ⟨_, _, rfl, ?_, rfl, rfl, rfl, rfl, rfl, rfl, rfl⟩
    rcases lt_or_le ((s.maxFundingRate : Int))
        (Int.tdiv (Int.tdiv ((markPrice - indexPrice) * (basisPoints : Int))
          indexPrice * (s.fundingPeriod : Int)) (oneDay : Int)) with h1 | h1
    · rw [if_pos h1, if_neg (by omega), min_eq_left h1.le, max_eq_right (by omega)]
    · rw [if_neg (not_lt.mpr h1), min_eq_right h1]
      rcases lt_or_le (Int.tdiv (Int.tdiv ((markPrice - indexPrice) * (basisPoints : Int))
          indexPrice * (s.fundingPeriod : Int)) (oneDay : Int))
          (-(s.maxFundingRate : Int)) with h2 | h2
      · rw [if_pos h2, max_eq_left h2.le]
      · rw [if_neg (not_lt.mpr h2), max_eq_right h2]
  · unfold Funding.setFundingPeriod at hp
    split at hp
    · exact absurd hp (by simp)
    · cases hp
      rfl
  · unfold Funding.setMaxFundingRate at hq
    split at hq
    · exact absurd hq (by simp)
    · cases hq
      rfl

/-- C9 (witness): the funding theorem at a concrete state (period 8 hours,
cap 1000 bps, fresh market) with mark `2100e18` and index `2000e18` at
time 28800. -/
theorem C9_funding_update_witness :
    (Funding.updateFundingRate ⟨⟨0, 0, 0, 0⟩, 0, 28800, 1000⟩
        (2100 * (UNIT : Int)) (2000 * (UNIT : Int)) 28800 = .error .tooEarly ↔
      28800 < 0 + 28800) ∧
    (0 + 28800 ≤ 28800 →
      ∃ s2 rate,
        Funding.updateFundingRate ⟨⟨0, 0, 0, 0⟩, 0, 28800, 1000⟩
          (2100 * (UNIT : Int)) (2000 * (UNIT : Int)) 28800 = .ok (s2, rate) ∧
        rate = max (-((1000 : Nat) : Int)) (min (((1000 : Nat) : Int))
          (Int.tdiv (Int.tdiv ((2100 * (UNIT : Int) - 2000 * (UNIT : Int)) *
            (basisPoints : Int)) (2000 * (UNIT : Int)) * ((28800 : Nat) : Int))
            (oneDay : Int))) ∧
        s2.growth.cumulativeFunding = 0 + rate ∧
        s2.growth.timestamp = 28800 ∧
        s2.growth.longFundingRate = rate ∧
        s2.growth.shortFundingRate = -rate ∧
        s2.traderIndex = 0 ∧
        s2.fundingPeriod = 28800 ∧
        s2.maxFundingRate = 1000) ∧
    (∀ psize : Int,
      (Funding.settleFunding ⟨⟨0, 0, 0, 0⟩, 0, 28800, 1000⟩ psize).1.growth.cumulativeFunding
        = 0) ∧
    (∀ p s2, Funding.setFundingPeriod ⟨⟨0, 0, 0, 0⟩, 0, 28800, 1000⟩ p = .ok s2 →
      s2.growth = ⟨0, 0, 0, 0⟩) ∧
    (∀ q s2, Funding.setMaxFundingRate ⟨⟨0, 0, 0, 0⟩, 0, 28800, 1000⟩ q = .ok s2 →
      s2.growth = ⟨0, 0, 0, 0⟩) :=
  C9_funding_update ⟨⟨0, 0, 0, 0⟩, 0, 28800, 1000⟩
    (2100 * (UNIT : Int)) (2000 * (UNIT : Int)) 28800 (by decide)

end PerpDex
